import Mathlib

/-!
Shallow embedding of the SchoolTracker pipeline (SchoolTracker.py):
the geocode cache (`load_locations` / `save_locations`), the address
resolver (`locate_address`), the rating parser (`parse_rating`), the
color mapper (`rating_to_color`) and the distance-to-degree helpers
(`km2lat` / `km2lng`).

Modelling conventions:
* Python floats are modelled as exact rationals (`ℚ`); `math.cos` and
  `math.pi` force the geodesic helpers onto `ℝ`.
* A text file is modelled as its list of lines (`List String`); this is
  faithful for fields that contain no newline, which is recorded as a
  hypothesis where it matters.
* `str`/`eval` on the coordinate pair (used by the cache persistence) is
  modelled by a serializer/deserializer parameter pair; Python guarantees
  `eval(str(x)) == x` for the values involved, which appears as the
  round-trip hypothesis of the corresponding theorems.
* A Python `dict` is an insertion-ordered association list with unique
  keys; `dictInsert` updates in place or appends, exactly like `d[k] = v`.
* Exceptions that abort the process are modelled with `Option`/dedicated
  error constructors; warnings written to stderr are collected in a list.
-/

namespace SchoolTracker

/-- A string with no newline: for these, writing `'%s\n' % s` emits
exactly one line, so the list-of-lines file model is faithful. -/
def singleLine (s : String) : Prop := '\n' ∉ s.data

instance (s : String) : Decidable (singleLine s) := by
  unfold singleLine; infer_instance

/-- Python `str.strip()` on the character list: drop whitespace from
both ends.  (`Char.isWhitespace` covers the ASCII whitespace this
repository's data uses; Python strips full-Unicode whitespace.) -/
def pyStrip (cs : List Char) : List Char :=
  ((cs.dropWhile Char.isWhitespace).reverse.dropWhile Char.isWhitespace).reverse

/-- Python `str.strip()` as a string-to-string operation. -/
def pyStripStr (s : String) : String := String.mk (pyStrip s.data)

/-- Lookup in a Python dict (`k in d` / `d[k]`), modelled on an
insertion-ordered association list. -/
def dictGet {κ α : Type} [DecidableEq κ] (k : κ) : List (κ × α) → Option α
  | [] => none
  | (k', v) :: rest => if k' = k then some v else dictGet k rest

/-- Python dict assignment `d[k] = v`: overwrite in place if the key is
present, append otherwise. -/
def dictInsert {κ α : Type} [DecidableEq κ] (k : κ) (v : α) :
    List (κ × α) → List (κ × α)
  | [] => [(k, v)]
  | (k', v') :: rest =>
      if k' = k then (k, v) :: rest else (k', v') :: dictInsert k v rest

/-- The geocode cache: query string ↦ (address, coordinate pair).  The
coordinate type is a parameter `γ` (in the script it is the JSON value
`[lng, lat]` returned by the geocoder). -/
def Cache (γ : Type) : Type := List (String × (String × γ))

instance {γ : Type} [DecidableEq γ] : DecidableEq (Cache γ) := by
  unfold Cache; infer_instance

instance {γ : Type} : Membership (String × (String × γ)) (Cache γ) :=
  inferInstanceAs (Membership (String × (String × γ)) (List (String × (String × γ))))

/-- `load_locations` (SchoolTracker.py:220-232): read the cache back from
the persisted lines, three lines per entry (query / address / coords).
An empty (after strip) query line stops the scan; the `eval` of the
coordinate line is the `deser` parameter; a group truncated by the end of
file or a failing `eval` is an uncaught exception, modelled as `none`. -/
def load_locations_go {γ : Type} (deser : String → Option γ)
    (acc : Cache γ) : List String → Option (Cache γ)
  | [] => some acc
  | line :: rest =>
    let query := pyStripStr line
    if query = "" then some acc
    else
      match rest with
      | addr :: coordsLine :: rest' =>
        match deser (pyStripStr coordsLine) with
        | some c => load_locations_go deser
            (dictInsert query (pyStripStr addr, c) acc) rest'
        | none => none
      | _ => none

def load_locations {γ : Type} (deser : String → Option γ)
    (lines : List String) : Option (Cache γ) :=
  load_locations_go deser [] lines

/-- The entries of the cache sorted by key, as Python's
`sorted(cache.items())` produces them (a stable sort; dict keys are
unique, so only the key part of the tuple comparison is ever
exercised). -/
def sortedEntries {γ : Type} (cache : Cache γ) :
    List (String × (String × γ)) :=
  List.insertionSort
    (fun a b : String × (String × γ) => a.1 ≤ b.1)
    (cache : List (String × (String × γ)))

/-- `save_locations` (SchoolTracker.py:234-238): write the entries sorted
by key, one 3-line group (`query`, `address`, `str(coords)`) per entry. -/
def save_locations {γ : Type} (ser : γ → String) (cache : Cache γ) :
    List String :=
  (sortedEntries cache).flatMap (fun e => [e.1, e.2.1, ser e.2.2])

/-! ## Address resolver -/

/-- The coordinate pair as delivered by the geocoder: index 0 is
longitude, index 1 is latitude ("Geocoder has longitude first"). -/
def GeoCoords : Type := ℚ × ℚ

instance : DecidableEq GeoCoords := by unfold GeoCoords; infer_instance

/-- The `properties` object of a geocoder result. -/
structure GeoProps where
  name : String
  description : String
deriving DecidableEq

/-- One element of the `features` array of a geocoder response. -/
structure GeoFeature where
  props : GeoProps
  coordinates : GeoCoords
deriving DecidableEq

/-- A geocoder HTTP response: status code, error message (consulted when
the status is not 200) and the `features` array of the JSON body. -/
structure GeoResponse where
  status : Nat
  message : String
  features : List GeoFeature
deriving DecidableEq

/-- Address extraction from the first result (SchoolTracker.py:294-299):
organization results carry the address in `description`; `geo` results
split it across `name` and `description`, joined with ", ". -/
def featureAddress (is_org : Bool) (f : GeoFeature) : String :=
  if is_org then f.props.description
  else f.props.name ++ ", " ++ f.props.description

/-- What one call of `locate_address` produces: the returned triple, the
cache afterwards, the number of network requests issued (0 or 1) and the
warnings written to stderr (their text elides the quoted query). -/
structure LocateResult where
  address : Option String
  lat : Option ℚ
  lng : Option ℚ
  cache : Cache GeoCoords
  netCalls : Nat
  warnings : List String
deriving DecidableEq

/-- `locate_address` (SchoolTracker.py:245-303), after the lazy cache
initialisation (modelled separately as `locate_address_init`): consult
the cache; on a miss in cache-only mode warn and give up; otherwise issue
one request, modelled by the `resp` parameter, and either fail soft
(non-200 status, empty feature list) or take the first result, cache it
and return it.  The returned pair is swapped: the geocoder
has longitude first, the script returns `(address, coords[1], coords[0])`. -/
def locate_address (query : String) (cache_only is_org : Bool)
    (resp : GeoResponse) (cache : Cache GeoCoords) : LocateResult :=
  match dictGet query cache with
  | some (address, coords) =>
    { address := some address, lat := some coords.2, lng := some coords.1
      cache := cache, netCalls := 0, warnings := [] }
  | none =>
    if cache_only then
      { address := none, lat := none, lng := none
        cache := cache, netCalls := 0
        warnings := ["address not in cache, skipping"] }
    else
      if resp.status ≠ 200 then
        { address := none, lat := none, lng := none
          cache := cache, netCalls := 1
          warnings := ["Geocode query failed with HTTP code " ++
                       toString resp.status ++ ": " ++ resp.message] }
      else
        match resp.features with
        | [] =>
          { address := none, lat := none, lng := none
            cache := cache, netCalls := 1
            warnings := ["Failed to locate query"] }
        | res0 :: _ =>
          let address := featureAddress is_org res0
          let coords := res0.coordinates
          { address := some address, lat := some coords.2
            lng := some coords.1
            cache := dictInsert query (address, coords) cache
            netCalls := 1, warnings := [] }

/-- The lazy cache initialisation at the top of `locate_address`
(SchoolTracker.py:248-255): if the cache file exists, load it, otherwise
start from the empty mapping.  The file system is modelled as a partial
map from paths to line lists. -/
def locate_address_init {γ : Type} (deser : String → Option γ)
    (fs : String → Option (List String)) (path : String) :
    Option (Cache γ) :=
  match fs path with
  | some lines => load_locations deser lines
  | none => some []

/-! ## Rating parser -/

/-- `re.sub(r'#.*', '', line)`: drop everything from the first `#` on
(`.` does not cross a newline, and the line model holds no newline). -/
def stripComment (s : String) : String :=
  String.mk (s.data.takeWhile (· ≠ '#'))

/-- One step of whitespace-run collapsing: `inWS` records whether the
previous character was whitespace already replaced by a space. -/
def collapseGo (inWS : Bool) : List Char → List Char
  | [] => []
  | c :: rest =>
    if c.isWhitespace then
      (if inWS then [] else [' ']) ++ collapseGo true rest
    else c :: collapseGo false rest

/-- `re.sub(r'\s+', ' ', s.strip())` (SchoolTracker.py:200-201): trim,
then squash each whitespace run to one space. -/
def collapseWs (s : String) : String :=
  String.mk (collapseGo false (pyStrip s.data))

/-- Value of a digit string, as `int()` computes it. -/
def digitsToNat (ds : List Char) : Nat :=
  ds.foldl (fun a c => a * 10 + (c.toNat - 48)) 0

/-- Python `\w` (word character) restricted to the alphabets this input
actually uses: ASCII alphanumerics, underscore and the Cyrillic block
U+0400-U+04FF.  (Python's `\w` is full-Unicode; the repository's data is
ASCII + Cyrillic, so the restriction is faithful on its domain.) -/
def isWordChar (c : Char) : Bool :=
  c.isAlphanum || c = '_' || (0x400 ≤ c.toNat && c.toNat ≤ 0x4FF)

def isWordCharOpt : Option Char → Bool
  | none => false
  | some c => isWordChar c

/-- Scanner for `re.findall(r'\b[0-9]+\b', name)`: maximal digit runs
whose neighbours on both sides (when present) are non-word characters.
`startOK` records whether the current run began at a word boundary,
`run` is the current run reversed, `prev` the previous character. -/
def numTokensGo (startOK : Bool) (run : List Char) (prev : Option Char) :
    List Char → List (List Char)
  | [] => if startOK && !run.isEmpty then [run.reverse] else []
  | c :: rest =>
    if c.isDigit then
      if run.isEmpty then
        numTokensGo (!isWordCharOpt prev) [c] (some c) rest
      else
        numTokensGo startOK (c :: run) (some c) rest
    else
      (if startOK && !run.isEmpty && !isWordChar c then [run.reverse] else [])
        ++ numTokensGo false [] (some c) rest

/-- `re.findall(r'\b[0-9]+\b', ·)` (SchoolTracker.py:203). -/
def numTokens (cs : List Char) : List (List Char) :=
  numTokensGo false [] none cs

/-- Number extraction (SchoolTracker.py:203-214): no token ⇒ no number;
more than one token ⇒ first token, no remap; exactly one token ⇒ that
token, with the static remap 1567 ↦ 67. -/
def extract_num (name : String) : Option Nat :=
  match numTokens name.data with
  | [] => none
  | [n] =>
    let num := digitsToNat n
    some (if num = 1567 then 67 else num)
  | n :: _ :: _ => some (digitsToNat n)

/-- Backtracking helper: try `f` at `j, j-1, ..., 0`, first success wins
(regex engines try greedy alternatives longest-first). -/
def tryDown {α : Type} (f : Nat → Option α) : Nat → Option α
  | 0 => f 0
  | j + 1 =>
    match f (j + 1) with
    | some x => some x
    | none => tryDown f j

/-- `(?:[+-][0-9]+|0)`: sign and a nonempty digit run, or a literal `0`;
returns the rest of the input on success. -/
def parseDelta : List Char → Option (List Char)
  | '+' :: w =>
    if (w.takeWhile Char.isDigit).isEmpty then none
    else some (w.dropWhile Char.isDigit)
  | '-' :: w =>
    if (w.takeWhile Char.isDigit).isEmpty then none
    else some (w.dropWhile Char.isDigit)
  | '0' :: w => some w
  | _ => none

/-- ` +\((?:[+-][0-9]+|0)\) *$`: the tail of the first dialect after the
school name. -/
def matchTail (u : List Char) : Bool :=
  let sp := (u.takeWhile (· = ' ')).length
  if sp = 0 then false
  else
    match u.drop sp with
    | '(' :: v =>
      match parseDelta v with
      | some (')' :: z) => z.all (· = ' ')
      | _ => false
    | _ => false

/-- Greedy `(.*)` before the tail: the longest prefix whose remainder
matches the tail. -/
def greedyName (t : List Char) : Option (List Char) :=
  tryDown (fun k => if matchTail (t.drop k) then some (t.take k) else none)
    t.length

/-- Dialect 1, `^([0-9]+)\. +(.*) +\((?:[+-][0-9]+|0)\) *$`
(SchoolTracker.py:179): returns (rank digits, raw name). -/
def matchDialect1 (s : List Char) : Option (List Char × List Char) :=
  let ds := s.takeWhile Char.isDigit
  let r1 := s.dropWhile Char.isDigit
  if ds.isEmpty then none
  else
    match r1 with
    | '.' :: r2 =>
      let m := (r2.takeWhile (· = ' ')).length
      match tryDown
          (fun j => if j = 0 then none else greedyName (r2.drop j)) m with
      | some nm => some (ds, nm)
      | none => none
    | _ => none

def isRatChar (c : Char) : Bool := c.isDigit || c = '.'

/-- Dialect 2, `^(.*)\t([0-9.]+)$` (SchoolTracker.py:185): with a greedy
`(.*)` the rating group is the maximal `[0-9.]` suffix, which must be
nonempty and preceded immediately by a tab; returns (raw name, rating
digits). -/
def matchDialect2 (s : List Char) : Option (List Char × List Char) :=
  let r := s.reverse
  let sufr := r.takeWhile isRatChar
  match r.dropWhile isRatChar with
  | '\t' :: prer =>
    if sufr.isEmpty then none else some (prer.reverse, sufr.reverse)
  | _ => none

def isRatCommaChar (c : Char) : Bool := c.isDigit || c = '.' || c = ','

/-- Dialect 3, `^[0-9]+[ \t]+([^\t]+)\t+([^\t]+\t+[^\t]+)\t+([0-9,.]+)`
(SchoolTracker.py:191), unanchored on the right: returns (name, raw city
columns, rating digits).  Maximal munch of each atom: the character
classes cannot cross the tab runs that separate them, so greedy
backtracking degenerates to maximal munch on every input. -/
def matchDialect3 (s : List Char) :
    Option (List Char × List Char × List Char) :=
  let ds := s.takeWhile Char.isDigit
  let r1 := s.dropWhile Char.isDigit
  if ds.isEmpty then none
  else
    let isSpTab : Char → Bool := fun c => c = ' ' || c = '\t'
    let ws := r1.takeWhile isSpTab
    let r2 := r1.dropWhile isSpTab
    if ws.isEmpty then none
    else
      let g1 := r2.takeWhile (· ≠ '\t')
      let r3 := r2.dropWhile (· ≠ '\t')
      if g1.isEmpty then none
      else
        let t1 := r3.takeWhile (· = '\t')
        let r4 := r3.dropWhile (· = '\t')
        if t1.isEmpty then none
        else
          let p1 := r4.takeWhile (· ≠ '\t')
          let r5 := r4.dropWhile (· ≠ '\t')
          if p1.isEmpty then none
          else
            let t2 := r5.takeWhile (· = '\t')
            let r6 := r5.dropWhile (· = '\t')
            if t2.isEmpty then none
            else
              let p2 := r6.takeWhile (· ≠ '\t')
              let r7 := r6.dropWhile (· ≠ '\t')
              if p2.isEmpty then none
              else
                let t3 := r7.takeWhile (· = '\t')
                let r8 := r7.dropWhile (· = '\t')
                if t3.isEmpty then none
                else
                  let g3 := r8.takeWhile isRatCommaChar
                  if g3.isEmpty then none
                  else some (g1, p1 ++ t2 ++ p2, g3)

/-- Python `float()` on strings drawn from `[0-9.]`: an integer part
and/or a fractional part around at most one dot; anything else raises
(`none`).  Float values are modelled as exact rationals. -/
def pyFloat (cs : List Char) : Option ℚ :=
  let ip := cs.takeWhile Char.isDigit
  match cs.dropWhile Char.isDigit with
  | [] => if ip.isEmpty then none else some (digitsToNat ip : ℚ)
  | '.' :: fp =>
    if fp.all Char.isDigit && (!ip.isEmpty || !fp.isEmpty) then
      some ((digitsToNat ip : ℚ) + (digitsToNat fp : ℚ) / (10 : ℚ) ^ fp.length)
    else none
  | _ => none

/-- Python `int()` on a float: truncation toward zero. -/
def pyInt (q : ℚ) : ℤ := if 0 ≤ q then ⌊q⌋ else -⌊-q⌋

/-- The canonical record produced per parsed line (the fields of
`School.__init__` that the parser fills). -/
structure School where
  name : String
  city : String
  number : Option Nat
  rating : ℚ
deriving DecidableEq

/-- Post-dialect processing (SchoolTracker.py:200-215): collapse
whitespace in name and city, extract the school number. -/
def mkSchool (rating : ℚ) (nm ct : List Char) : School :=
  let name := collapseWs (String.mk nm)
  let city := collapseWs (String.mk ct)
  { name := name, city := city, number := extract_num name, rating := rating }

/-- Outcome of the per-line loop body of `parse_rating`: a record, a
skipped blank line, an unparsable line (warn and continue), or an
uncaught exception from a malformed numeric literal. -/
inductive LineResult where
  | ok (s : School)
  | blank
  | unmatched
  | err
deriving DecidableEq

/-- The loop body of `parse_rating` (SchoolTracker.py:171-215): strip
the comment, trim, skip blanks, try the three dialects in order, then
normalize the fields. -/
def parse_rating_line (line : String) : LineResult :=
  let l := pyStripStr (stripComment line)
  if l = "" then .blank
  else
    match matchDialect1 l.data with
    | some (ds, nm) =>
      .ok (mkSchool (-(digitsToNat ds : ℚ)) nm "Москва".data)
    | none =>
      match matchDialect2 l.data with
      | some (nm, rs) =>
        match pyFloat rs with
        | some q => .ok (mkSchool ((pyInt q : ℤ) : ℚ) nm "Москва".data)
        | none => .err
      | none =>
        match matchDialect3 l.data with
        | some (nm, ct, rs) =>
          match pyFloat (rs.map (fun c => if c = ',' then '.' else c)) with
          | some q => .ok (mkSchool q nm ct)
          | none => .err
        | none => .unmatched

/-- `parse_rating` over the file's lines (the `idx` side table maps
number ↦ last record with that number; it is not needed by any claim and
is omitted).  `none` models the process aborting on a malformed numeric
literal. -/
def parse_rating (lines : List String) : Option (List School) :=
  match lines with
  | [] => some []
  | line :: rest =>
    match parse_rating_line line with
    | .ok s => (parse_rating rest).map (s :: ·)
    | .blank => parse_rating rest
    | .unmatched => parse_rating rest
    | .err => none

/-! ## Color mapper -/

/-- Python 3 `round()` on a rational: round half to even. -/
def pyRound (q : ℚ) : ℤ :=
  if q - ⌊q⌋ < 1 / 2 then ⌊q⌋
  else if 1 / 2 < q - ⌊q⌋ then ⌊q⌋ + 1
  else if Even ⌊q⌋ then ⌊q⌋ else ⌊q⌋ + 1

/-- The channel list `C` built by `rating_to_color`
(SchoolTracker.py:345-355): interpolate each channel of
`A = (255, 255, 255)` toward `B = (255, 0, 0)` with
`alpha = (r - rmin) / (rmax - rmin)`. -/
def rating_to_color_channels (r rmin rmax : ℚ) : List ℤ :=
  let alpha := (r - rmin) / (rmax - rmin)
  let A : List ℤ := [255, 255, 255]
  let B : List ℤ := [255, 0, 0]
  (A.zip B).map (fun ab => pyRound ((ab.2 : ℚ) * alpha + (ab.1 : ℚ) * (1 - alpha)))

/-- Python `'%02x' % n`: lowercase hex, zero-padded to width 2 (the sign
of a negative value counts toward the width). -/
def pyHex02 (n : ℤ) : String :=
  let ds := Nat.toDigits 16 n.natAbs
  if n < 0 then String.mk ('-' :: ds)
  else String.mk (if ds.length < 2 then '0' :: ds else ds)

/-- `rating_to_color` (SchoolTracker.py:345-356): the three channels
formatted as 6 hex digits. -/
def rating_to_color (r rmin rmax : ℚ) : String :=
  String.join ((rating_to_color_channels r rmin rmax).map pyHex02)

/-! ## Distance-to-degree conversion -/

/-- `km2lat` (SchoolTracker.py:158-160). -/
noncomputable def km2lat (km : ℝ) : ℝ := km / 111

/-- `km2lng` (SchoolTracker.py:162-164): the latitude span corrected by
the cosine of the latitude (the argument `pi/2 * lat/90` is the latitude
in radians). -/
noncomputable def km2lng (km lat : ℝ) : ℝ :=
  km2lat km / Real.cos (Real.pi / 2 * lat / 90)

/-! ## Concrete serializer used by witnesses and counterexamples

The persistence layer is parametric in the coordinate serialization
(Python's `str`/`eval`); witnesses instantiate it with a two-valued
coordinate type so that every hypothesis evaluates by `decide`. -/

def demoSer : Bool → String
  | true => "(1, 2)"
  | false => "(3, 4)"

def demoDeser (s : String) : Option Bool :=
  if s = "(1, 2)" then some true
  else if s = "(3, 4)" then some false
  else none

end SchoolTracker

/-! ## Theorems -/

namespace SchoolTracker

/-- C10: the resolver's result triple is all-or-nothing — on every path it
is either exactly (none, none, none) or all three of address, latitude and
longitude are present. -/
theorem locate_address_all_or_nothing (query : String) (cache_only is_org : Bool)
    (resp : GeoResponse) (cache : Cache GeoCoords) :
    ((locate_address query cache_only is_org resp cache).address = none ∧
     (locate_address query cache_only is_org resp cache).lat = none ∧
     (locate_address query cache_only is_org resp cache).lng = none) ∨
    ((locate_address query cache_only is_org resp cache).address.isSome ∧
     (locate_address query cache_only is_org resp cache).lat.isSome ∧
     (locate_address query cache_only is_org resp cache).lng.isSome) := by
  unfold locate_address
  rcases h : dictGet query cache with _ | ⟨a, c⟩
  · by_cases hco : cache_only
    · simp [hco]
    · by_cases hst : resp.status ≠ 200
      · simp [hco, hst]
      · rcases hf : resp.features with _ | ⟨f, fs⟩
        · simp [hco, hst, hf]
        · simp [hco, hst, hf]
  · simp

/-- C1: on a successful resolution the returned triple is
(address, lat, lng) with lat the second and lng the first component of
the first result's coordinate pair, and the (address, pair) is cached
unswapped. -/
theorem locate_address_swaps_coords (query : String) (is_org : Bool)
    (resp : GeoResponse) (cache : Cache GeoCoords) (f : GeoFeature)
    (fs : List GeoFeature)
    (hmiss : dictGet query cache = none)
    (hstatus : resp.status = 200)
    (hfeat : resp.features = f :: fs) :
    locate_address query false is_org resp cache =
      { address := some (featureAddress is_org f),
        lat := some f.coordinates.2,
        lng := some f.coordinates.1,
        cache := dictInsert query (featureAddress is_org f, f.coordinates) cache,
        netCalls := 1, warnings := [] } := by
  unfold locate_address
  rw [hmiss]
  simp [hstatus, hfeat]

/-- C3: a cache hit returns the cached (address, coords) pair (unpacked in
canonical order) with no network call; a miss in cache-only mode makes no
network call, emits a warning and returns the not-found triple. -/
theorem locate_address_cache_shortcircuit (query : String)
    (cache_only is_org : Bool) (resp : GeoResponse) (cache : Cache GeoCoords) :
    (∀ a c, dictGet query cache = some (a, c) →
      locate_address query cache_only is_org resp cache =
        { address := some a, lat := some c.2, lng := some c.1,
          cache := cache, netCalls := 0, warnings := [] }) ∧
    (dictGet query cache = none → cache_only = true →
      locate_address query cache_only is_org resp cache =
        { address := none, lat := none, lng := none,
          cache := cache, netCalls := 0,
          warnings := ["address not in cache, skipping"] }) := by
  constructor
  · intro a c h
    unfold locate_address
    rw [h]
  · intro h hco
    unfold locate_address
    rw [h, hco]
    simp

/-- C7: loading the cache from a path that does not exist yields the empty
mapping and is not an error. -/
theorem locate_address_init_missing_file {γ : Type}
    (deser : String → Option γ) (fs : String → Option (List String))
    (path : String) (h : fs path = none) :
    locate_address_init deser fs path = some [] := by
  unfold locate_address_init
  rw [h]

/-- C9: the latitude span is km/111 and the longitude span is the latitude
span divided by the cosine of the latitude in radians (meridian-convergence
correction, not a flat ratio). -/
theorem km2lng_meridian_correction (km lat : ℝ)
    (h : Real.cos (lat * Real.pi / 180) ≠ 0) :
    km2lat km = km / 111 ∧
    km2lng km lat = km2lat km / Real.cos (lat * Real.pi / 180) := by
  refine ⟨rfl, ?_⟩
  unfold km2lng
  have harg : Real.pi / 2 * lat / 90 = lat * Real.pi / 180 := by ring
  rw [harg]

/-- C9 witness -/
theorem km2lng_meridian_correction_witness :
    Real.cos ((0 : ℝ) * Real.pi / 180) ≠ 0 ∧
    (km2lat 111 = 111 / 111 ∧
     km2lng 111 0 = km2lat 111 / Real.cos ((0 : ℝ) * Real.pi / 180)) := by
  have h : Real.cos ((0 : ℝ) * Real.pi / 180) ≠ 0 := by
    norm_num [Real.cos_zero]
  exact ⟨h, km2lng_meridian_correction 111 0 h⟩

/-- C1 witness -/
theorem locate_address_swaps_coords_witness :
    locate_address "q" false true ⟨200, "", [⟨⟨"N", "D"⟩, ((37 : ℚ), (55 : ℚ))⟩]⟩ [] =
      { address := some "D", lat := some 55, lng := some 37,
        cache := [("q", ("D", ((37 : ℚ), (55 : ℚ))))],
        netCalls := 1, warnings := [] } :=
  locate_address_swaps_coords "q" true ⟨200, "", [⟨⟨"N", "D"⟩, ((37 : ℚ), (55 : ℚ))⟩]⟩
    [] ⟨⟨"N", "D"⟩, ((37 : ℚ), (55 : ℚ))⟩ [] rfl rfl rfl

/-- C3 witness -/
theorem locate_address_cache_shortcircuit_witness :
    locate_address "q" false true ⟨404, "m", []⟩ [("q", ("addr", ((1 : ℚ), (2 : ℚ))))] =
      { address := some "addr", lat := some 2, lng := some 1,
        cache := [("q", ("addr", ((1 : ℚ), (2 : ℚ))))],
        netCalls := 0, warnings := [] } ∧
    locate_address "q2" true true ⟨404, "m", []⟩ [] =
      { address := none, lat := none, lng := none, cache := [], netCalls := 0,
        warnings := ["address not in cache, skipping"] } :=
  ⟨(locate_address_cache_shortcircuit "q" false true ⟨404, "m", []⟩
      [("q", ("addr", ((1 : ℚ), (2 : ℚ))))]).1 "addr" ((1 : ℚ), (2 : ℚ)) rfl,
   (locate_address_cache_shortcircuit "q2" true true ⟨404, "m", []⟩ []).2 rfl rfl⟩

/-- C7 witness -/
theorem locate_address_init_missing_file_witness :
    locate_address_init demoDeser (fun _ => none) ".cache.txt" = some [] :=
  locate_address_init_missing_file demoDeser (fun _ => none) ".cache.txt" rfl

end SchoolTracker

namespace SchoolTracker

/-- Every record produced by the per-line parser carries the number
extracted from its own (already collapsed) name: shared helper for the
identifier claims. -/
theorem parse_ok_fields (line : String) (rec : School)
    (h : parse_rating_line line = .ok rec) :
    rec.number = extract_num rec.name := by
  simp only [parse_rating_line] at h
  split at h
  · cases h
  · split at h
    · cases h; rfl
    · split at h
      · split at h
        · cases h; rfl
        · cases h
      · split at h
        · split at h
          · cases h; rfl
          · cases h
        · cases h

/-- C4: a line matching the first dialect yields a record whose rating is
the arithmetic negation of the rank and whose city is the fixed default
"Москва". -/
theorem parse_dialect1_negated_rank (line : String) (ds nm : List Char)
    (h : matchDialect1 (pyStripStr (stripComment line)).data = some (ds, nm)) :
    ∃ rec, parse_rating_line line = .ok rec ∧
      rec.rating = -(digitsToNat ds : ℚ) ∧ rec.city = "Москва" := by
  have hne : pyStripStr (stripComment line) ≠ "" := by
    intro he
    rw [he] at h
    simp [matchDialect1] at h
  refine ⟨mkSchool (-(digitsToNat ds : ℚ)) nm "Москва".data, ?_, rfl, ?_⟩
  · simp only [parse_rating_line, if_neg hne, h]
  · show collapseWs (String.mk "Москва".data) = "Москва"
    decide

/-- C4 witness -/
theorem parse_dialect1_negated_rank_witness :
    ∃ rec, parse_rating_line "1. Школа №1535 (+1)" = .ok rec ∧
      rec.rating = -(digitsToNat ['1'] : ℚ) ∧ rec.city = "Москва" :=
  parse_dialect1_negated_rank "1. Школа №1535 (+1)" ['1']
    "Школа №1535".data (by decide)

end SchoolTracker

namespace SchoolTracker

/-- C5 counterexample: a parsed line whose name holds the numeric tokens
1567 and 5; the extracted identifier is the first token 1567 and is NOT
remapped to 67, so the remap is not unconditional. -/
theorem remap_counterexample :
    parse_rating_line "Школа 1567 5\t94" =
      .ok ⟨"Школа 1567 5", "Москва", some 1567, 94⟩ ∧
    numTokens "Школа 1567 5".data = [['1', '5', '6', '7'], ['5']] ∧
    (some 1567 : Option Nat) ≠ some 67 := by
  refine ⟨by decide, by decide, by decide⟩

/-- C5 amended: the identifier remap 1567 ↦ 67 is applied exactly when
the collapsed name contains exactly one numeric token; with several
tokens the first token is kept unremapped. -/
theorem remap_only_single_token (line : String) (rec : School)
    (hok : parse_rating_line line = .ok rec) :
    (∀ n, numTokens rec.name.data = [n] → digitsToNat n = 1567 →
       rec.number = some 67) ∧
    (∀ n m rest, numTokens rec.name.data = n :: m :: rest →
       rec.number = some (digitsToNat n)) := by
  have hnum := parse_ok_fields line rec hok
  constructor
  · intro n h1 h2
    rw [hnum]
    unfold extract_num
    rw [h1]
    simp [h2]
  · intro n m rest h1
    rw [hnum]
    unfold extract_num
    rw [h1]

/-- C5 witness -/
theorem remap_only_single_token_witness :
    (⟨"Школа №1567", "Москва", some 67, (94 : ℚ)⟩ : School).number = some 67 :=
  (remap_only_single_token "Школа №1567\t94"
      ⟨"Школа №1567", "Москва", some 67, 94⟩ (by decide)).1
    ['1', '5', '6', '7'] (by decide) (by decide)

/-- C6 counterexample: a parsed line whose name holds exactly the numeric
token 1567: the identifier is 67 (the remap), not the first matched
token. -/
theorem first_token_counterexample :
    parse_rating_line "Школа №1567\t94" =
      .ok ⟨"Школа №1567", "Москва", some 67, 94⟩ ∧
    numTokens "Школа №1567".data = [['1', '5', '6', '7']] ∧
    (some 67 : Option Nat) ≠ some (digitsToNat ['1', '5', '6', '7']) := by
  refine ⟨by decide, by decide, by decide⟩

/-- C6 amended: zero tokens ⇒ no identifier; otherwise the identifier is
the first matched token, except that a single token 1567 is remapped to
67. -/
theorem number_extraction_policy (line : String) (rec : School)
    (hok : parse_rating_line line = .ok rec) :
    (numTokens rec.name.data = [] → rec.number = none) ∧
    (∀ n rest, numTokens rec.name.data = n :: rest →
       rec.number = some (if rest = [] ∧ digitsToNat n = 1567
                          then 67 else digitsToNat n)) := by
  have hnum := parse_ok_fields line rec hok
  constructor
  · intro h1
    rw [hnum]
    unfold extract_num
    rw [h1]
  · intro n rest h1
    rw [hnum]
    unfold extract_num
    cases rest with
    | nil =>
      rw [h1]
      by_cases h2 : digitsToNat n = 1567 <;> simp [h2]
    | cons m t =>
      rw [h1]
      simp

/-- C6 witness -/
theorem number_extraction_policy_witness :
    (⟨"Лицей", "Москва", none, (90 : ℚ)⟩ : School).number = none :=
  (number_extraction_policy "Лицей\t90"
      ⟨"Лицей", "Москва", none, 90⟩ (by decide)).1 (by decide)

end SchoolTracker

namespace SchoolTracker

/-- `round()` of an integer value is that integer. -/
theorem pyRound_intCast (n : ℤ) : pyRound (n : ℚ) = n := by
  unfold pyRound
  rw [Int.floor_intCast]
  norm_num

/-- Python rounding (half to even) is monotone. -/
theorem pyRound_mono {x y : ℚ} (h : x ≤ y) : pyRound x ≤ pyRound y := by
  have hf : ⌊x⌋ ≤ ⌊y⌋ := Int.floor_le_floor h
  rcases lt_or_eq_of_le hf with hlt | heq
  · have h1 : pyRound x ≤ ⌊x⌋ + 1 := by
      unfold pyRound; split_ifs <;> omega
    have h2 : ⌊y⌋ ≤ pyRound y := by
      unfold pyRound; split_ifs <;> omega
    omega
  · unfold pyRound
    rw [← heq]
    have hfr : x - ⌊x⌋ ≤ y - ⌊x⌋ := by linarith
    split_ifs <;> first | omega | linarith

/-- The channel list in closed form: channel 0 is constant 255, channels
1 and 2 interpolate 255 toward 0. -/
theorem channels_closed (r rmin rmax : ℚ) :
    rating_to_color_channels r rmin rmax =
      [255, pyRound (255 * (1 - (r - rmin) / (rmax - rmin))),
       pyRound (255 * (1 - (r - rmin) / (rmax - rmin)))] := by
  unfold rating_to_color_channels
  simp only [List.zip_cons_cons, List.zip_nil_right, List.map_cons, List.map_nil]
  norm_num
  rw [show (255 : ℚ) * ((r - rmin) / (rmax - rmin)) +
        255 * (1 - (r - rmin) / (rmax - rmin)) = ((255 : ℤ) : ℚ) from by
      push_cast; ring]
  exact pyRound_intCast 255

end SchoolTracker

namespace SchoolTracker

/-- C8: for observedMin < observedMax, colorFor at the minimum is exactly
"ffffff" (the low color) and at the maximum exactly "ff0000" (the high
color), and each channel is monotone in the rating (channel 0 constant,
channels 1 and 2 antitone). -/
theorem rating_to_color_gradient (rmin rmax : ℚ) (h : rmin < rmax) :
    rating_to_color rmin rmin rmax = "ffffff" ∧
    rating_to_color rmax rmin rmax = "ff0000" ∧
    (∀ r r' : ℚ, rmin ≤ r → r ≤ r' → r' ≤ rmax →
      ((rating_to_color_channels r rmin rmax).getD 0 0 =
         (rating_to_color_channels r' rmin rmax).getD 0 0 ∧
       (rating_to_color_channels r' rmin rmax).getD 1 0 ≤
         (rating_to_color_channels r rmin rmax).getD 1 0 ∧
       (rating_to_color_channels r' rmin rmax).getD 2 0 ≤
         (rating_to_color_channels r rmin rmax).getD 2 0)) := by
  have hd : (0 : ℚ) < rmax - rmin := by linarith
  refine ⟨?_, ?_, ?_⟩
  · have hch : rating_to_color_channels rmin rmin rmax = [255, 255, 255] := by
      rw [channels_closed]
      norm_num
      rw [show (255 : ℚ) = ((255 : ℤ) : ℚ) from by norm_num]
      exact pyRound_intCast 255
    unfold rating_to_color
    rw [hch]
    decide
  · have hch : rating_to_color_channels rmax rmin rmax = [255, 0, 0] := by
      rw [channels_closed]
      rw [div_self (ne_of_gt hd)]
      norm_num
      rw [show (0 : ℚ) = ((0 : ℤ) : ℚ) from by norm_num]
      exact pyRound_intCast 0
    unfold rating_to_color
    rw [hch]
    decide
  · intro r r' hr hrr hr'
    have halpha : (r - rmin) / (rmax - rmin) ≤ (r' - rmin) / (rmax - rmin) :=
      div_le_div_of_nonneg_right (by linarith) (le_of_lt hd)
    have hval : (255 : ℚ) * (1 - (r' - rmin) / (rmax - rmin)) ≤
        255 * (1 - (r - rmin) / (rmax - rmin)) := by nlinarith
    rw [channels_closed, channels_closed]
    exact ⟨rfl, pyRound_mono hval, pyRound_mono hval⟩

/-- C8 witness -/
theorem rating_to_color_gradient_witness :
    rating_to_color 0 0 2 = "ffffff" ∧
    rating_to_color 2 0 2 = "ff0000" ∧
    ((rating_to_color_channels 0 0 2).getD 0 0 =
       (rating_to_color_channels 1 0 2).getD 0 0 ∧
     (rating_to_color_channels 1 0 2).getD 1 0 ≤
       (rating_to_color_channels 0 0 2).getD 1 0 ∧
     (rating_to_color_channels 1 0 2).getD 2 0 ≤
       (rating_to_color_channels 0 0 2).getD 2 0) :=
  ⟨(rating_to_color_gradient 0 2 (by norm_num)).1,
   (rating_to_color_gradient 0 2 (by norm_num)).2.1,
   (rating_to_color_gradient 0 2 (by norm_num)).2.2 0 1 (by norm_num)
     (by norm_num) (by norm_num)⟩

end SchoolTracker

namespace SchoolTracker

/-- Loading the flattened 3-line groups of well-formed entries folds them
back into the accumulator with dict semantics. -/
theorem load_go_flatMap {γ : Type} (ser : γ → String)
    (deser : String → Option γ) (l : List (String × (String × γ)))
    (acc : Cache γ)
    (hrt : ∀ c, deser (ser c) = some c)
    (hsertrim : ∀ c, pyStripStr (ser c) = ser c)
    (hent : ∀ e ∈ l, pyStripStr e.1 = e.1 ∧ e.1 ≠ "" ∧
      pyStripStr e.2.1 = e.2.1) :
    load_locations_go deser acc (l.flatMap (fun e => [e.1, e.2.1, ser e.2.2])) =
      some (l.foldl (fun acc e => dictInsert e.1 e.2 acc) acc) := by
  induction l generalizing acc with
  | nil => rfl
  | cons e t ih =>
    obtain ⟨h1, h2, h3⟩ := hent e (List.mem_cons_self e t)
    show load_locations_go deser acc
        (e.1 :: e.2.1 :: ser e.2.2 :: t.flatMap (fun e => [e.1, e.2.1, ser e.2.2])) = _
    unfold load_locations_go
    simp only [h1, if_neg h2, hsertrim, hrt, h3]
    rw [ih _ (fun e' he' => hent e' (List.mem_cons_of_mem e he'))]
    rfl

/-- Inserting a fresh key appends the binding at the end. -/
theorem dictInsert_of_not_mem {κ α : Type} [DecidableEq κ] (k : κ) (v : α)
    (l : List (κ × α)) (h : k ∉ l.map Prod.fst) :
    dictInsert k v l = l ++ [(k, v)] := by
  induction l with
  | nil => rfl
  | cons x t ih =>
    simp only [List.map_cons, List.mem_cons] at h
    push_neg at h
    unfold dictInsert
    rw [if_neg (fun he => h.1 he.symm)]
    rw [ih h.2]
    rfl

/-- Folding dict inserts of entries with fresh, pairwise distinct keys
appends them in order. -/
theorem foldl_dictInsert_append {κ α : Type} [DecidableEq κ]
    (l : List (κ × α)) (acc : List (κ × α))
    (hnd : (l.map Prod.fst).Nodup)
    (hdisj : ∀ e ∈ l, e.1 ∉ acc.map Prod.fst) :
    l.foldl (fun acc e => dictInsert e.1 e.2 acc) acc = acc ++ l := by
  induction l generalizing acc with
  | nil => simp
  | cons e t ih =>
    simp only [List.map_cons, List.nodup_cons] at hnd
    show t.foldl _ (dictInsert e.1 e.2 acc) = _
    rw [dictInsert_of_not_mem e.1 e.2 acc (hdisj e (List.mem_cons_self e t))]
    rw [ih _ hnd.2 (fun e' he' => by
      simp only [List.map_append, List.mem_append, List.map_cons,
        List.map_nil, List.mem_singleton]
      push_neg
      refine ⟨hdisj e' (List.mem_cons_of_mem e he'), ?_⟩
      intro hee
      exact hnd.1 (hee ▸ List.mem_map_of_mem Prod.fst he'))]
    simp

/-- `dictGet` is invariant under permutation when keys are unique. -/
theorem dictGet_perm {κ α : Type} [DecidableEq κ] {l l' : List (κ × α)}
    (hp : l.Perm l') :
    ∀ k, (l.map Prod.fst).Nodup → dictGet k l = dictGet k l' := by
  induction hp with
  | nil => intro k _; rfl
  | cons x hp ih =>
    intro k hnd
    obtain ⟨k', v⟩ := x
    simp only [List.map_cons, List.nodup_cons] at hnd
    by_cases hk : k' = k
    · simp [dictGet, hk]
    · simp only [dictGet, if_neg hk]
      exact ih k hnd.2
  | swap x y t =>
    intro k hnd
    obtain ⟨kx, vx⟩ := x
    obtain ⟨ky, vy⟩ := y
    simp only [List.map_cons, List.nodup_cons, List.mem_cons] at hnd
    have hxy : ky ≠ kx := fun he => hnd.1 (Or.inl he)
    by_cases hx : kx = k <;> by_cases hy : ky = k
    · exact absurd (hy.trans hx.symm) hxy
    · simp [dictGet, hx, hy]
    · simp [dictGet, hx, hy]
    · simp [dictGet, hx, hy]
  | trans h1 h2 ih1 ih2 =>
    intro k hnd
    rw [ih1 k hnd, ih2 k (((h1.map Prod.fst).nodup_iff).mp hnd)]

end SchoolTracker

namespace SchoolTracker

/-- C2 amended: for a mapping with unique keys whose keys and addresses
are single-line, already-stripped strings with non-empty keys, flushing
and reloading reproduces an equivalent mapping (lookup-equal on every
key), and the persisted file lists the entries in ascending key order. -/
theorem save_load_roundtrip {γ : Type} (ser : γ → String)
    (deser : String → Option γ) (cache : Cache γ)
    (hrt : ∀ c, deser (ser c) = some c)
    (hser : ∀ c, pyStripStr (ser c) = ser c ∧ singleLine (ser c))
    (hent : ∀ e ∈ cache, pyStripStr e.1 = e.1 ∧ e.1 ≠ "" ∧ singleLine e.1 ∧
      pyStripStr e.2.1 = e.2.1 ∧ singleLine e.2.1)
    (hnd : (cache.map Prod.fst).Nodup) :
    load_locations deser (save_locations ser cache) =
      some (sortedEntries cache) ∧
    (∀ k, dictGet k (sortedEntries cache) = dictGet k cache) ∧
    List.Pairwise (· ≤ ·) ((sortedEntries cache).map Prod.fst) := by
  have hperm : (sortedEntries cache).Perm cache :=
    List.perm_insertionSort
      (fun a b : String × (String × γ) => a.1 ≤ b.1) cache
  have hnd' : ((sortedEntries cache).map Prod.fst).Nodup :=
    ((hperm.map Prod.fst).nodup_iff).mpr hnd
  refine ⟨?_, ?_, ?_⟩
  · unfold load_locations save_locations
    rw [load_go_flatMap ser deser _ [] hrt (fun c => (hser c).1)
      (fun e he => by
        obtain ⟨a, b, _, d, _⟩ := hent e (hperm.subset he)
        exact ⟨a, b, d⟩)]
    rw [foldl_dictInsert_append _ [] hnd' (by simp)]
    simp
  · exact fun k => dictGet_perm hperm k hnd'
  · haveI : IsTotal (String × (String × γ))
        (fun a b : String × (String × γ) => a.1 ≤ b.1) :=
      ⟨fun a b => le_total a.1 b.1⟩
    haveI : IsTrans (String × (String × γ))
        (fun a b : String × (String × γ) => a.1 ≤ b.1) :=
      ⟨fun _ _ _ hab hbc => le_trans hab hbc⟩
    have hs := List.sorted_insertionSort
      (fun a b : String × (String × γ) => a.1 ≤ b.1)
      (cache : List (String × (String × γ)))
    rw [List.pairwise_map]
    exact hs

/-- C2 counterexample: with the single-line, non-empty key "k" and
address "a " (non-empty, single-line, but with a trailing blank) the
reloaded mapping holds the stripped address, not the stored pair. -/
theorem save_load_counterexample :
    ("k" : String) ≠ "" ∧ singleLine "k" ∧
    ("a " : String) ≠ "" ∧ singleLine "a " ∧
    load_locations demoDeser (save_locations demoSer [("k", ("a ", true))]) =
      some [("k", ("a", true))] ∧
    dictGet "k" ([("k", ("a", true))] : Cache Bool) ≠ some ("a ", true) := by
  refine ⟨by decide, by decide, by decide, by decide, by decide, by decide⟩

/-- C2 witness -/
theorem save_load_roundtrip_witness :
    load_locations demoDeser (save_locations demoSer
        [("b", ("x", true)), ("a", ("y", false))]) =
      some (sortedEntries [("b", ("x", true)), ("a", ("y", false))]) ∧
    dictGet "a" (sortedEntries [("b", ("x", true)), ("a", ("y", false))]) =
      dictGet "a" ([("b", ("x", true)), ("a", ("y", false))] : Cache Bool) ∧
    dictGet "b" (sortedEntries [("b", ("x", true)), ("a", ("y", false))]) =
      dictGet "b" ([("b", ("x", true)), ("a", ("y", false))] : Cache Bool) ∧
    List.Pairwise (· ≤ ·)
      ((sortedEntries [("b", ("x", true)), ("a", ("y", false))]).map Prod.fst) := by
  have h := save_load_roundtrip demoSer demoDeser
    [("b", ("x", true)), ("a", ("y", false))]
    (by decide) (by decide) (by decide) (by decide)
  exact ⟨h.1, h.2.1 "a", h.2.1 "b", h.2.2⟩

end SchoolTracker
